import Mathlib

/-!
# Trip-Tracker: tracking session and viewport fitting

A shallow embedding of `src/vite-project/src/App.jsx`.

* The React state cells `trips`, `currentRoute` and `watchId` become the
  fields of `AppState`.
* Everything the component does to the outside (alerts, console output, calls
  to `navigator.geolocation`, commands sent to the Leaflet map) is recorded as
  data, in program order.
* Values supplied from outside are inputs: the identifier returned by
  `watchPosition`, the positions and errors handed to the callbacks, and the
  value of the property `map.L` read by `MapUpdater`.
* Coordinates are JavaScript numbers. The code only stores them and (through
  Leaflet) takes minima and maxima, so the embedding is parametric in the
  coordinate type `α`; a linear order on `α` is required only for the bounds
  (coordinates are taken to be comparable numbers, so not `NaN`).
* Handlers run one at a time and each sees the state left by the previous one,
  as the specification's section 5 describes.
-/

namespace TripTracker

/-! ## Data model -/

/-- The object literal `newPoint` built in `successCallback` (lines 17-21). -/
structure TrackPoint (α : Type) where
  lat : α
  lng : α
  timestamp : Nat
  deriving DecidableEq, Repr

/-- The `coords` member of the position handed to `successCallback`. -/
structure Coords (α : Type) where
  latitude : α
  longitude : α
  deriving DecidableEq, Repr

/-- The `position` argument of `successCallback`. -/
structure Position (α : Type) where
  coords : Coords α
  timestamp : Nat
  deriving DecidableEq, Repr

/-- The `err` argument of `errorCallback`. -/
structure PositionError where
  code : Int
  message : String
  deriving DecidableEq, Repr

/-- The `options` object passed to `watchPosition` (lines 31-35). -/
structure PositionOptions where
  enableHighAccuracy : Bool
  timeout : Nat
  maximumAge : Nat
  deriving DecidableEq, Repr

/-- The three `useState` cells of `App` (lines 7-9). `watchId` is `null`
(`none`) or the number returned by `watchPosition`. -/
structure AppState (α : Type) where
  trips : List (List (TrackPoint α))
  currentRoute : List (TrackPoint α)
  watchId : Option Int
  deriving DecidableEq, Repr

/-- Observable actions of the component, one constructor per call site.
Template strings are kept as their interpolated arguments. -/
inductive Output (α : Type) where
  /-- The call `alert(message)`. -/
  | alert (message : String)
  /-- The `console.log` of line 23, with `newPoint.lat` and `newPoint.lng`. -/
  | logNewPoint (lat lng : α)
  /-- The `console.log` of line 47, with `currentRoute.length`. -/
  | logStopped (points : Nat)
  /-- The `console.error` of line 26, with `err.code` and `err.message`. -/
  | logError (code : Int) (message : String)
  /-- The call `navigator.geolocation.watchPosition(.., .., options)`, which returned `id`. -/
  | watchPosition (options : PositionOptions) (id : Int)
  /-- The call `navigator.geolocation.clearWatch(id)`. -/
  | clearWatch (id : Int)
  deriving DecidableEq, Repr

/-- The component together with its environment: the React state, the watches
the positioning subsystem currently holds (registered by `watchPosition` and
not yet removed by `clearWatch`), and the trace of observable actions. -/
structure World (α : Type) where
  app : AppState α
  watches : List Int
  out : List (Output α)
  deriving DecidableEq, Repr

/-- The derived status shown on line 90. -/
inductive TrackingState where
  | ACTIVE
  | INACTIVE
  deriving DecidableEq, Repr

/-! ## JavaScript truthiness of the stored handle -/

/-- JavaScript `ToBoolean` on the `watchId` cell: `null` is falsy, a number is
truthy unless it is zero. -/
def truthy : Option Int → Bool
  | none => false
  | some n => n != 0

/-- The status text of line 90: `watchId ? 'ACTIVE' : 'INACTIVE'`. -/
def status {α : Type} (s : AppState α) : TrackingState :=
  if truthy s.watchId then TrackingState.ACTIVE else TrackingState.INACTIVE

/-- The `disabled` attribute of the start button (line 96): `!!watchId`. -/
def startDisabled {α : Type} (s : AppState α) : Bool :=
  !(!(truthy s.watchId))

/-- The `disabled` attribute of the stop button (line 105): `!watchId`. -/
def stopDisabled {α : Type} (s : AppState α) : Bool :=
  !(truthy s.watchId)

/-! ## The tracking session controller -/

/-- The state of a freshly mounted component: `useState([])`, `useState([])`,
`useState(null)`; nothing registered, nothing emitted. -/
def init (α : Type) : World α :=
  { app := { trips := [], currentRoute := [], watchId := none }
    watches := []
    out := [] }

/-- The `options` constant of lines 31-35. -/
def options : PositionOptions :=
  { enableHighAccuracy := true, timeout := 5000, maximumAge := 0 }

/-- The object literal of lines 17-21. -/
def newPoint {α : Type} (position : Position α) : TrackPoint α :=
  { lat := position.coords.latitude
    lng := position.coords.longitude
    timestamp := position.timestamp }

/-- The `successCallback` closure (lines 16-24): append through the functional
updater, then log. It reads no state and tests nothing. -/
def successCallback {α : Type} (position : Position α) (w : World α) : World α :=
  let p := newPoint position
  { w with
    app := { w.app with currentRoute := w.app.currentRoute ++ [p] }
    out := w.out ++ [Output.logNewPoint p.lat p.lng] }

/-- The `errorCallback` closure (lines 25-30): always log, alert when
`err.code === 1`. -/
def errorCallback {α : Type} (err : PositionError) (w : World α) : World α :=
  { w with
    out := w.out ++ [Output.logError err.code err.message] ++
      (if err.code = 1 then
        [Output.alert
          "Location permission denied. Please grant access in your browser settings."]
      else []) }

/-- The function `startTracking` (lines 11-40). `id` is the value that
`watchPosition` returns for this call. -/
def startTracking {α : Type} (id : Int) (w : World α) : World α :=
  if truthy w.app.watchId then
    { w with out := w.out ++ [Output.alert "Tracking is already active!"] }
  else
    { app := { w.app with watchId := some id, currentRoute := [] }
      watches := w.watches ++ [id]
      out := w.out ++
        [Output.watchPosition options id, Output.alert "Started tracking your trip."] }

/-- The function `stopTracking` (lines 41-51). `clearWatch(h)` removes every
watch identified by `h` from the subsystem. -/
def stopTracking {α : Type} (w : World α) : World α :=
  match w.app.watchId with
  | some h =>
    if truthy (some h) then
      { app := { w.app with watchId := none }
        watches := w.watches.filter (fun i => i != h)
        out := w.out ++
          [Output.clearWatch h,
           Output.alert "Tracking STOPPED. Route data captured in current session.",
           Output.logStopped w.app.currentRoute.length] }
    else
      { w with out := w.out ++ [Output.alert "Tracking is not currently active."] }
  | none =>
    { w with out := w.out ++ [Output.alert "Tracking is not currently active."] }

/-! ## Event sequences -/

/-- What can happen to a mounted component: the two button handlers and the
two callbacks registered with the positioning subsystem. -/
inductive Event (α : Type) where
  /-- A call of `startTracking()`; `id` is what `watchPosition` returns if it is reached. -/
  | start (id : Int)
  /-- A call of `stopTracking()`. -/
  | stop
  /-- The subsystem calls `successCallback(position)`. -/
  | sample (position : Position α)
  /-- The subsystem calls `errorCallback(err)`. -/
  | error (err : PositionError)
  deriving DecidableEq, Repr

/-- One event. -/
def step {α : Type} (w : World α) : Event α → World α
  | Event.start id => startTracking id w
  | Event.stop => stopTracking w
  | Event.sample position => successCallback position w
  | Event.error err => errorCallback err w

/-- A finite sequence of events, in order. -/
def run {α : Type} (w : World α) (es : List (Event α)) : World α :=
  es.foldl step w

/-- States the component can be in after some sequence of events from mount. -/
def Reachable {α : Type} (w : World α) : Prop :=
  ∃ es : List (Event α), run (init α) es = w

/-- A position with the given latitude, longitude and timestamp. -/
def mkPosition {α : Type} (lat lng : α) (t : Nat) : Position α :=
  { coords := { latitude := lat, longitude := lng }, timestamp := t }

/-! ## The viewport fitter -/

/-- A Leaflet bounds object whose corners are set: `southWest` is
`(lat, lng)` of the lower corner, `northEast` of the upper corner. -/
structure Bounds (α : Type) where
  southWest : α × α
  northEast : α × α
  deriving DecidableEq, Repr

/-- Modelled from the spec: the method `extend` of Leaflet's `LatLngBounds`
is library code that is not part of the repository. Following section 4.2
("the minimal axis-aligned bounding box enclosing every point"), extending a
box by a point lowers the south-west corner and raises the north-east corner
just enough to contain it. -/
def Bounds.extend {α : Type} [LinearOrder α] (b : Bounds α) (p : α × α) : Bounds α :=
  { southWest := (min p.1 b.southWest.1, min p.2 b.southWest.2)
    northEast := (max p.1 b.northEast.1, max p.2 b.northEast.2) }

/-- Modelled from the spec: the constructor `L.LatLngBounds(positions)` of
Leaflet is library code that is not part of the repository. Following section
4.2 it is the minimal axis-aligned bounding box enclosing every `(lat, lng)`
pair: the first point gives a degenerate box, each further point extends it.
On no points there is no box (`none`). -/
def LatLngBounds {α : Type} [LinearOrder α] : List (α × α) → Option (Bounds α)
  | [] => none
  | p :: ps => some (ps.foldl Bounds.extend { southWest := p, northEast := p })

/-- Commands sent to the Leaflet map instance. -/
inductive MapCommand (α : Type) where
  /-- The call `map.fitBounds(bounds, { padding })`. -/
  | fitBounds (bounds : Option (Bounds α)) (padding : Nat × Nat)
  /-- The call `map.setView(center, zoom)`. -/
  | setView (center : α × α) (zoom : Nat)
  deriving DecidableEq, Repr

/-- The array `positions` of line 57: `route.map(p => [p.lat, p.lng])`. -/
def MapUpdater.positions {α : Type} (route : List (TrackPoint α)) : List (α × α) :=
  route.map (fun p => (p.lat, p.lng))

/-- The value the effect reads from `map.L` on line 62. The repository never
assigns this property of the map instance (lines 133-134 assign `window.L`),
so what it holds is decided outside the repository. -/
inductive MapL (α : Type) where
  /-- The property is `undefined`, or holds another falsy value. -/
  | undefined
  /-- The property holds a truthy value. The argument is that value's member
  `LatLngBounds` when the member is a constructor, and `none` when it is not. -/
  | object (ctor : Option (List (α × α) → Option (Bounds α)))

/-- JavaScript `ToBoolean` on the value read from `map.L`. -/
def MapL.toBoolean {α : Type} : MapL α → Bool
  | MapL.undefined => false
  | MapL.object _ => true

/-- Modelled from the spec: the Leaflet core namespace, as the value of
`map.L` that the comment on lines 60-61 expects. Leaflet is library code that
is not part of the repository; its member `LatLngBounds` is the constructor
modelled above from section 4.2. -/
def MapL.leaflet {α : Type} [LinearOrder α] : MapL α :=
  MapL.object (some LatLngBounds)

/-- Exceptions that end the effect early. -/
inductive EffectError where
  /-- The `TypeError` of `new L.LatLngBounds(positions)` on line 67 when
  `L.LatLngBounds` is not a constructor. -/
  | notAConstructor
  deriving DecidableEq, Repr

/-- The body of the `useEffect` of `MapUpdater` (lines 59-76): the list of
commands it sends to the map, or the exception that ends it. `L` is the value
read from `map.L` on line 62. The only statement that can throw is the `new`
on line 67, which precedes the only command of its branch. -/
def MapUpdater.effect {α : Type} (L : MapL α) (route : List (TrackPoint α)) :
    Except EffectError (List (MapCommand α)) :=
  let positions := MapUpdater.positions route
  if decide (positions.length > 1) && L.toBoolean then
    match L with
    | MapL.object (some ctor) =>
      Except.ok [MapCommand.fitBounds (ctor positions) (50, 50)]
    | _ => Except.error EffectError.notAConstructor
  else if decide (positions.length = 1) && L.toBoolean then
    match positions.head? with
    | some c => Except.ok [MapCommand.setView c 15]
    | none => Except.ok []
  else
    Except.ok []

/-- Whether a command is a `fitBounds`. -/
def MapCommand.isFitBounds {α : Type} : MapCommand α → Bool
  | MapCommand.fitBounds _ _ => true
  | MapCommand.setView _ _ => false

/-- Whether a command is a `setView`. -/
def MapCommand.isSetView {α : Type} : MapCommand α → Bool
  | MapCommand.fitBounds _ _ => false
  | MapCommand.setView _ _ => true

/-- The box `b` is the exact bounding box of the points `l`: it contains every
point and each of its four sides is touched by some point. -/
def IsBoundingBox {α : Type} [LinearOrder α] (b : Bounds α) (l : List (α × α)) : Prop :=
  (∀ p ∈ l, b.southWest.1 ≤ p.1 ∧ p.1 ≤ b.northEast.1 ∧
            b.southWest.2 ≤ p.2 ∧ p.2 ≤ b.northEast.2) ∧
  (∃ p ∈ l, p.1 = b.southWest.1) ∧ (∃ p ∈ l, p.2 = b.southWest.2) ∧
  (∃ p ∈ l, p.1 = b.northEast.1) ∧ (∃ p ∈ l, p.2 = b.northEast.2)

/-- Scenario A of the specification, with handle `7` and timestamps `1`, `2`. -/
def scenarioA : List (Event Int) :=
  [Event.start 7, Event.sample (mkPosition 10 20 1), Event.sample (mkPosition 10 21 2)]

/-- What a handler added to the trace: the part of `after.out` that follows
the `before.out.length` entries that were already there. -/
def emitted {α : Type} (before after : World α) : List (Output α) :=
  after.out.drop before.out.length

/-- Whether an observable action is a user-visible notice (`alert`). -/
def Output.isAlert {α : Type} : Output α → Bool
  | Output.alert _ => true
  | _ => false

/-- Whether an observable action is a call to the positioning subsystem. -/
def Output.isGeolocationCall {α : Type} : Output α → Bool
  | Output.watchPosition _ _ => true
  | Output.clearWatch _ => true
  | _ => false

/-- A session that was started with handle `1` and then stopped. -/
def stoppedSession : World Int :=
  run (init Int) [Event.start 1, Event.stop]

/-- A stopped session that retained a route of two points. -/
def stoppedWithRoute : World Int :=
  run (init Int) (scenarioA ++ [Event.stop])

/-- A running session with handle `7` and a route of two points. -/
def activeSession : World Int :=
  run (init Int) scenarioA

/-- The registered watches are exactly the one named by the stored handle, or
none when no handle is stored. -/
def HandleOwnsWatches {α : Type} (w : World α) : Prop :=
  (w.app.watchId = none ∧ w.watches = []) ∨
  (∃ h : Int, h ≠ 0 ∧ w.app.watchId = some h ∧ w.watches = [h])

/-- Every identifier handed out by `watchPosition` in the sequence is
non-zero. -/
def NonzeroHandles {α : Type} (es : List (Event α)) : Prop :=
  ∀ id : Int, Event.start id ∈ es → id ≠ 0

/-! ## Auxiliary facts -/

theorem run_nil {α : Type} (w : World α) : run w [] = w := rfl

theorem run_cons {α : Type} (w : World α) (e : Event α) (es : List (Event α)) :
    run w (e :: es) = run (step w e) es := rfl

theorem run_append {α : Type} (w : World α) (es fs : List (Event α)) :
    run w (es ++ fs) = run (run w es) fs := by
  simp [run, List.foldl_append]

theorem status_inactive_iff {α : Type} (s : AppState α) :
    status s = TrackingState.INACTIVE ↔ truthy s.watchId = false := by
  unfold status
  cases h : truthy s.watchId <;> simp

theorem status_active_iff {α : Type} (s : AppState α) :
    status s = TrackingState.ACTIVE ↔ truthy s.watchId = true := by
  unfold status
  cases h : truthy s.watchId <;> simp

theorem truthy_some (h : Int) : truthy (some h) = true ↔ h ≠ 0 := by
  simp [truthy]

/-- Delivering samples one after another appends their points in order and
touches neither the handle nor the registered watches. -/
theorem run_samples {α : Type} (samples : List (Position α)) (w : World α) :
    (run w (samples.map Event.sample)).app.currentRoute
        = w.app.currentRoute ++ samples.map newPoint ∧
      (run w (samples.map Event.sample)).app.watchId = w.app.watchId ∧
      (run w (samples.map Event.sample)).watches = w.watches := by
  induction samples generalizing w with
  | nil => simp [run_nil]
  | cons p ps ih =>
    have h := ih (successCallback p w)
    simp only [List.map_cons, run_cons, step]
    refine ⟨?_, ?_, ?_⟩
    · rw [h.1]; simp [successCallback]
    · rw [h.2.1]; simp [successCallback]
    · rw [h.2.2]; simp [successCallback]

/-! ## Route accumulation -/

/-- C1 (append-only). Calling `startTracking()` in an inactive state and then
delivering any finite sequence of samples to the success callback leaves the
route equal to the points of those samples, one per sample, in call order and
unaltered; the stored handle is the one `watchPosition` returned. -/
theorem route_after_start_is_samples_in_order {α : Type} (w : World α) (id : Int)
    (samples : List (Position α)) (hw : status w.app = TrackingState.INACTIVE) :
    (run (startTracking id w) (samples.map Event.sample)).app.currentRoute
        = samples.map newPoint ∧
      (run (startTracking id w) (samples.map Event.sample)).app.currentRoute.length
        = samples.length ∧
      (run (startTracking id w) (samples.map Event.sample)).app.watchId = some id := by
  have hf : truthy w.app.watchId = false := (status_inactive_iff w.app).1 hw
  have h := run_samples samples (startTracking id w)
  have hr : (startTracking id w).app.currentRoute = [] := by simp [startTracking, hf]
  have hi : (startTracking id w).app.watchId = some id := by simp [startTracking, hf]
  refine ⟨?_, ?_, ?_⟩
  · rw [h.1, hr]; simp
  · rw [h.1, hr]; simp
  · rw [h.2.1, hi]

/-- Scenario A: `start()`, `sample(10,20,t1)`, `sample(10,21,t2)` gives the
route `[(10,20,t1),(10,21,t2)]`. -/
theorem route_after_start_is_samples_in_order_witness :
    status (init Int).app = TrackingState.INACTIVE ∧
    ((run (startTracking 7 (init Int))
        ([mkPosition 10 20 1, mkPosition 10 21 2].map Event.sample)).app.currentRoute
        = [⟨10, 20, 1⟩, ⟨10, 21, 2⟩] ∧
      (run (startTracking 7 (init Int))
        ([mkPosition 10 20 1, mkPosition 10 21 2].map Event.sample)).app.currentRoute.length
        = 2 ∧
      (run (startTracking 7 (init Int))
        ([mkPosition 10 20 1, mkPosition 10 21 2].map Event.sample)).app.watchId = some 7) :=
  ⟨by decide,
   route_after_start_is_samples_in_order (init Int) 7
     [mkPosition 10 20 1, mkPosition 10 21 2] (by decide)⟩

/-- C2 as stated fails: after `start()` and `stop()` the session is inactive
and the route is empty, yet a sample delivered to the success callback of the
cancelled subscription changes the route (it now has one point). -/
theorem late_sample_is_not_ignored :
    Reachable stoppedSession ∧
    status stoppedSession.app = TrackingState.INACTIVE ∧
    stoppedSession.app.currentRoute.length = 0 ∧
    (successCallback (mkPosition 10 20 1) stoppedSession).app.currentRoute.length = 1 ∧
    (successCallback (mkPosition 10 20 1) stoppedSession).app.currentRoute
      ≠ stoppedSession.app.currentRoute :=
  ⟨⟨[Event.start 1, Event.stop], rfl⟩, by decide, by decide, by decide, by decide⟩

/-- C2 (amended). In every state, in particular in every inactive one, a
sample delivered to the success callback is appended to the route, which grows
by exactly one point; the handle, the derived tracking state and the registered
watches do not change. -/
theorem late_sample_is_appended {α : Type} (w : World α) (position : Position α) :
    (successCallback position w).app.currentRoute
        = w.app.currentRoute ++ [newPoint position] ∧
      (successCallback position w).app.currentRoute.length
        = w.app.currentRoute.length + 1 ∧
      (successCallback position w).app.watchId = w.app.watchId ∧
      status (successCallback position w).app = status w.app ∧
      (successCallback position w).watches = w.watches := by
  simp [successCallback, status]

/-- C3 (reset-on-start). Whatever the route held before, `startTracking()`
called in an inactive state leaves the route empty, and the first sample
delivered afterwards yields a route of exactly one point, that sample. -/
theorem start_resets_route {α : Type} (w : World α) (id : Int) (position : Position α)
    (hw : status w.app = TrackingState.INACTIVE) :
    (startTracking id w).app.currentRoute = [] ∧
      (successCallback position (startTracking id w)).app.currentRoute
        = [newPoint position] ∧
      (successCallback position (startTracking id w)).app.currentRoute.length = 1 := by
  have hf : truthy w.app.watchId = false := (status_inactive_iff w.app).1 hw
  simp [startTracking, successCallback, hf]

/-- A stopped session that retained two points is restarted: the route is
empty, and has one point after the next sample. -/
theorem start_resets_route_witness :
    status stoppedWithRoute.app = TrackingState.INACTIVE ∧
    stoppedWithRoute.app.currentRoute.length = 2 ∧
    ((startTracking 8 stoppedWithRoute).app.currentRoute = [] ∧
      (successCallback (mkPosition 30 40 3) (startTracking 8 stoppedWithRoute)).app.currentRoute
        = [newPoint (mkPosition 30 40 3)] ∧
      (successCallback (mkPosition 30 40 3)
        (startTracking 8 stoppedWithRoute)).app.currentRoute.length = 1) :=
  ⟨by decide, by decide,
   start_resets_route stoppedWithRoute 8 (mkPosition 30 40 3) (by decide)⟩

/-! ## Session lifecycle -/

/-- One event preserves `HandleOwnsWatches` when the identifier it may hand out
is non-zero. -/
theorem step_handleOwnsWatches {α : Type} (w : World α) (e : Event α)
    (he : ∀ id : Int, e = Event.start id → id ≠ 0) (hw : HandleOwnsWatches w) :
    HandleOwnsWatches (step w e) := by
  cases e with
  | start id =>
    have hid : id ≠ 0 := he id rfl
    rcases hw with ⟨h1, h2⟩ | ⟨h, hh, h1, h2⟩
    · right
      exact ⟨id, hid, by simp [step, startTracking, h1, truthy],
        by simp [step, startTracking, h1, h2, truthy]⟩
    · right
      exact ⟨h, hh, by simp [step, startTracking, h1, truthy, hh],
        by simp [step, startTracking, h1, h2, truthy, hh]⟩
  | stop =>
    rcases hw with ⟨h1, h2⟩ | ⟨h, hh, h1, h2⟩
    · left
      simp [step, stopTracking, h1, h2]
    · left
      simp [step, stopTracking, h1, h2, truthy, hh]
  | sample position =>
    rcases hw with ⟨h1, h2⟩ | ⟨h, hh, h1, h2⟩
    · left; simp [step, successCallback, h1, h2]
    · right; exact ⟨h, hh, by simp [step, successCallback, h1],
        by simp [step, successCallback, h2]⟩
  | error err =>
    rcases hw with ⟨h1, h2⟩ | ⟨h, hh, h1, h2⟩
    · left; simp [step, errorCallback, h1, h2]
    · right; exact ⟨h, hh, by simp [step, errorCallback, h1],
        by simp [step, errorCallback, h2]⟩

/-- As long as `watchPosition` never returns zero, at most one watch is
registered at any time, and it is the one named by the stored handle. -/
theorem watches_le_one_of_nonzeroHandles {α : Type} (es : List (Event α))
    (hes : NonzeroHandles es) :
    HandleOwnsWatches (run (init α) es) ∧ (run (init α) es).watches.length ≤ 1 := by
  have key : ∀ (fs : List (Event α)) (w : World α), NonzeroHandles fs →
      HandleOwnsWatches w → HandleOwnsWatches (run w fs) := by
    intro fs
    induction fs with
    | nil => intro w _ hw; simpa [run_nil] using hw
    | cons e fs ih =>
      intro w hfs hw
      rw [run_cons]
      apply ih
      · intro id hid
        exact hfs id (List.mem_cons_of_mem _ hid)
      · apply step_handleOwnsWatches w e _ hw
        intro id hid
        exact hfs id (by simp [hid])
  have h := key es (init α) hes (Or.inl ⟨rfl, rfl⟩)
  refine ⟨h, ?_⟩
  rcases h with ⟨_, h2⟩ | ⟨h, _, _, h2⟩ <;> simp [h2]

/-- C4, evaluated where it fails. When `watchPosition` returns `0`, the watch
is registered but the stored handle is falsy, so the session counts as
inactive: a second `startTracking()` registers a second watch (two are live),
and `stopTracking()` cancels nothing. -/
theorem two_live_watches_after_zero_handle :
    (run (init Int) [Event.start 0]).watches = [0] ∧
    status (run (init Int) [Event.start 0]).app = TrackingState.INACTIVE ∧
    (run (init Int) [Event.start 0, Event.start 1]).watches = [0, 1] ∧
    (run (init Int) [Event.start 0, Event.start 1]).watches.length = 2 ∧
    (run (init Int) [Event.start 0, Event.stop]).watches = [0] := by
  decide

/-- C5 (guarded transitions). `startTracking()` in an active state and
`stopTracking()` in an inactive state change nothing but the trace, to which
they add exactly one entry, the notice: the handle, the route and the
registered watches are as before and no call reaches the positioning
subsystem. -/
theorem misuse_only_emits_notice {α : Type} (w : World α) (id : Int) :
    (status w.app = TrackingState.ACTIVE →
      startTracking id w
          = { w with out := w.out ++ [Output.alert "Tracking is already active!"] } ∧
        emitted w (startTracking id w) = [Output.alert "Tracking is already active!"]) ∧
    (status w.app = TrackingState.INACTIVE →
      stopTracking w
          = { w with out := w.out ++ [Output.alert "Tracking is not currently active."] } ∧
        emitted w (stopTracking w) = [Output.alert "Tracking is not currently active."]) := by
  constructor
  · intro h
    have ht : truthy w.app.watchId = true := (status_active_iff w.app).1 h
    simp [startTracking, ht, emitted]
  · intro h
    have hf : truthy w.app.watchId = false := (status_inactive_iff w.app).1 h
    cases hid : w.app.watchId with
    | none => simp [stopTracking, hid, emitted]
    | some k =>
      rw [hid] at hf
      simp [stopTracking, hid, hf, emitted]

/-- A second start of a running session, and a stop of a stopped one. -/
theorem misuse_only_emits_notice_witness :
    (status activeSession.app = TrackingState.ACTIVE ∧
      startTracking 8 activeSession
          = { activeSession with
              out := activeSession.out ++ [Output.alert "Tracking is already active!"] } ∧
      emitted activeSession (startTracking 8 activeSession)
          = [Output.alert "Tracking is already active!"]) ∧
    (status stoppedWithRoute.app = TrackingState.INACTIVE ∧
      stopTracking stoppedWithRoute
          = { stoppedWithRoute with
              out := stoppedWithRoute.out ++
                [Output.alert "Tracking is not currently active."] } ∧
      emitted stoppedWithRoute (stopTracking stoppedWithRoute)
          = [Output.alert "Tracking is not currently active."]) :=
  ⟨⟨by decide, (misuse_only_emits_notice activeSession 8).1 (by decide)⟩,
   ⟨by decide, (misuse_only_emits_notice stoppedWithRoute 8).2 (by decide)⟩⟩

/-- C6 (stop from active, retention-on-stop). In an active state with stored
handle `h`, `stopTracking()` calls `clearWatch(h)` and nothing else on the
positioning subsystem, sets the handle to `null` so that the state is
inactive, and leaves the route as it was; and in every state whatsoever
`stopTracking()` leaves the route as it was. -/
theorem stop_clears_handle_keeps_route {α : Type} (w : World α) (h : Int)
    (hid : w.app.watchId = some h) (hw : status w.app = TrackingState.ACTIVE) :
    (emitted w (stopTracking w)
        = [Output.clearWatch h,
           Output.alert "Tracking STOPPED. Route data captured in current session.",
           Output.logStopped w.app.currentRoute.length] ∧
      (stopTracking w).watches = w.watches.filter (fun i => i != h) ∧
      (stopTracking w).app.watchId = none ∧
      status (stopTracking w).app = TrackingState.INACTIVE ∧
      (stopTracking w).app.currentRoute = w.app.currentRoute) ∧
    (∀ v : World α, (stopTracking v).app.currentRoute = v.app.currentRoute) := by
  have ht : truthy (some h) = true := by
    rw [← hid]; exact (status_active_iff w.app).1 hw
  have hne : h ≠ 0 := (truthy_some h).1 ht
  have hs : stopTracking w =
      { app := { w.app with watchId := none }
        watches := w.watches.filter (fun i => i != h)
        out := w.out ++
          [Output.clearWatch h,
           Output.alert "Tracking STOPPED. Route data captured in current session.",
           Output.logStopped w.app.currentRoute.length] } := by
    simp [stopTracking, hid, truthy, hne]
  refine ⟨?_, ?_⟩
  · rw [hs]
    simp [emitted, status, truthy]
  · intro v
    unfold stopTracking
    cases hv : v.app.watchId with
    | none => simp
    | some k => by_cases hk : truthy (some k) = true <;> simp [hk]

/-- Stopping the running session of scenario A, whose handle is `7`. -/
theorem stop_clears_handle_keeps_route_witness :
    activeSession.app.watchId = some 7 ∧
    status activeSession.app = TrackingState.ACTIVE ∧
    ((emitted activeSession (stopTracking activeSession)
        = [Output.clearWatch 7,
           Output.alert "Tracking STOPPED. Route data captured in current session.",
           Output.logStopped activeSession.app.currentRoute.length] ∧
      (stopTracking activeSession).watches = activeSession.watches.filter (fun i => i != 7) ∧
      (stopTracking activeSession).app.watchId = none ∧
      status (stopTracking activeSession).app = TrackingState.INACTIVE ∧
      (stopTracking activeSession).app.currentRoute = activeSession.app.currentRoute) ∧
    (∀ v : World Int, (stopTracking v).app.currentRoute = v.app.currentRoute)) :=
  ⟨by decide, by decide,
   stop_clears_handle_keeps_route activeSession 7 (by decide) (by decide)⟩

/-- C7, evaluated where it fails. Starting from the freshly mounted component
with `watchPosition` returning `0`: one watch is registered with the options
`enableHighAccuracy = true`, `timeout = 5000`, `maximumAge = 0` and `0` is
stored as the handle, but the derived tracking state is inactive, the start
button stays enabled and the stop button stays disabled. -/
theorem zero_handle_start_is_inactive :
    status (init Int).app = TrackingState.INACTIVE ∧
    emitted (init Int) (startTracking 0 (init Int))
      = [Output.watchPosition
          { enableHighAccuracy := true, timeout := 5000, maximumAge := 0 } 0,
         Output.alert "Started tracking your trip."] ∧
    (startTracking 0 (init Int)).watches = [0] ∧
    (startTracking 0 (init Int)).app.watchId = some 0 ∧
    status (startTracking 0 (init Int)).app = TrackingState.INACTIVE ∧
    startDisabled (startTracking 0 (init Int)).app = false ∧
    stopDisabled (startTracking 0 (init Int)).app = true := by
  decide

/-- When `watchPosition` returns a non-zero identifier, `startTracking()` in an
inactive state registers exactly one watch with the options of lines 31-35,
stores the identifier, and the derived tracking state is active. -/
theorem start_from_inactive_of_nonzero {α : Type} (w : World α) (id : Int)
    (hw : status w.app = TrackingState.INACTIVE) (hid : id ≠ 0) :
    emitted w (startTracking id w)
      = [Output.watchPosition
          { enableHighAccuracy := true, timeout := 5000, maximumAge := 0 } id,
         Output.alert "Started tracking your trip."] ∧
    (startTracking id w).watches = w.watches ++ [id] ∧
    (startTracking id w).app.watchId = some id ∧
    status (startTracking id w).app = TrackingState.ACTIVE ∧
    startDisabled (startTracking id w).app = true ∧
    stopDisabled (startTracking id w).app = false := by
  have hf : truthy w.app.watchId = false := (status_inactive_iff w.app).1 hw
  have hs : startTracking id w =
      { app := { w.app with watchId := some id, currentRoute := [] }
        watches := w.watches ++ [id]
        out := w.out ++
          [Output.watchPosition options id, Output.alert "Started tracking your trip."] } := by
    simp [startTracking, hf]
  rw [hs]
  simp [emitted, status, startDisabled, stopDisabled, truthy, hid, options]

/-! ## Positioning errors -/

/-- C10 (error classification). The error callback always logs the error; it
emits a notice if and only if the error code is `1`, and for any other code
the log entry is all it emits. In both cases the React state (handle and
route) and the registered watches are unchanged, so an active session remains
active. -/
theorem error_notice_iff_code_one {α : Type} (w : World α) (err : PositionError) :
    ((∃ o ∈ emitted w (errorCallback err w), Output.isAlert o = true) ↔ err.code = 1) ∧
    (err.code = 1 →
      emitted w (errorCallback err w)
        = [Output.logError err.code err.message,
           Output.alert
             "Location permission denied. Please grant access in your browser settings."]) ∧
    (err.code ≠ 1 →
      emitted w (errorCallback err w) = [Output.logError err.code err.message]) ∧
    (errorCallback err w).app = w.app ∧
    (errorCallback err w).watches = w.watches ∧
    (status w.app = TrackingState.ACTIVE →
      status (errorCallback err w).app = TrackingState.ACTIVE) := by
  by_cases hc : err.code = 1
  · simp [errorCallback, emitted, hc, Output.isAlert]
  · simp [errorCallback, emitted, hc, Output.isAlert]

/-- A permission-denied error (code `1`) and a timeout (code `3`) delivered to
the running session of scenario A. -/
theorem error_notice_iff_code_one_witness :
    status activeSession.app = TrackingState.ACTIVE ∧
    emitted activeSession (errorCallback ⟨1, "denied"⟩ activeSession)
      = [Output.logError 1 "denied",
         Output.alert
           "Location permission denied. Please grant access in your browser settings."] ∧
    emitted activeSession (errorCallback ⟨3, "timeout"⟩ activeSession)
      = [Output.logError 3 "timeout"] ∧
    status (errorCallback ⟨1, "denied"⟩ activeSession).app = TrackingState.ACTIVE :=
  ⟨by decide,
   (error_notice_iff_code_one activeSession ⟨1, "denied"⟩).2.1 rfl,
   (error_notice_iff_code_one activeSession ⟨3, "timeout"⟩).2.2.1 (by decide),
   (error_notice_iff_code_one activeSession ⟨1, "denied"⟩).2.2.2.2.2 (by decide)⟩

/-! ## Viewport fitting -/

/-- A single point is its own bounding box. -/
theorem isBoundingBox_singleton {α : Type} [LinearOrder α] (p : α × α) :
    IsBoundingBox { southWest := p, northEast := p } [p] := by
  simp [IsBoundingBox]

/-- Extending the exact box of `l` by `p` gives the exact box of `l ++ [p]`. -/
theorem isBoundingBox_extend {α : Type} [LinearOrder α] (b : Bounds α) (l : List (α × α))
    (p : α × α) (h : IsBoundingBox b l) : IsBoundingBox (b.extend p) (l ++ [p]) := by
  obtain ⟨hall, ⟨s, hs, hs1⟩, ⟨v, hv, hv1⟩, ⟨n, hn, hn1⟩, ⟨e, he, he1⟩⟩ := h
  refine ⟨?_, ?_, ?_, ?_, ?_⟩
  · intro q hq
    rcases List.mem_append.1 hq with hq | hq
    · obtain ⟨h1, h2, h3, h4⟩ := hall q hq
      exact ⟨le_trans (min_le_right _ _) h1, le_trans h2 (le_max_right _ _),
        le_trans (min_le_right _ _) h3, le_trans h4 (le_max_right _ _)⟩
    · have hqp : q = p := by simpa using hq
      subst hqp
      exact ⟨min_le_left _ _, le_max_left _ _, min_le_left _ _, le_max_left _ _⟩
  · rcases min_choice p.1 b.southWest.1 with hm | hm
    · exact ⟨p, by simp, by simp [Bounds.extend, hm]⟩
    · exact ⟨s, List.mem_append_left _ hs, by simp [Bounds.extend, hm, hs1]⟩
  · rcases min_choice p.2 b.southWest.2 with hm | hm
    · exact ⟨p, by simp, by simp [Bounds.extend, hm]⟩
    · exact ⟨v, List.mem_append_left _ hv, by simp [Bounds.extend, hm, hv1]⟩
  · rcases max_choice p.1 b.northEast.1 with hm | hm
    · exact ⟨p, by simp, by simp [Bounds.extend, hm]⟩
    · exact ⟨n, List.mem_append_left _ hn, by simp [Bounds.extend, hm, hn1]⟩
  · rcases max_choice p.2 b.northEast.2 with hm | hm
    · exact ⟨p, by simp, by simp [Bounds.extend, hm]⟩
    · exact ⟨e, List.mem_append_left _ he, by simp [Bounds.extend, hm, he1]⟩

/-- Extending point by point keeps the box exact. -/
theorem isBoundingBox_foldl {α : Type} [LinearOrder α] (ps : List (α × α)) (b : Bounds α)
    (l : List (α × α)) (h : IsBoundingBox b l) :
    IsBoundingBox (ps.foldl Bounds.extend b) (l ++ ps) := by
  induction ps generalizing b l with
  | nil => simpa using h
  | cons p ps ih =>
    have h1 := ih (b.extend p) (l ++ [p]) (isBoundingBox_extend b l p h)
    simpa [List.append_assoc] using h1

/-- On a non-empty array the constructor yields the exact bounding box. -/
theorem latLngBounds_isBoundingBox {α : Type} [LinearOrder α] (p : α × α)
    (ps : List (α × α)) :
    ∃ b : Bounds α, LatLngBounds (p :: ps) = some b ∧ IsBoundingBox b (p :: ps) :=
  ⟨_, rfl, by simpa using isBoundingBox_foldl ps _ [p] (isBoundingBox_singleton p)⟩

/-- An exact bounding box is determined by the points. -/
theorem isBoundingBox_unique {α : Type} [LinearOrder α] (b c : Bounds α) (l : List (α × α))
    (hb : IsBoundingBox b l) (hc : IsBoundingBox c l) : b = c := by
  obtain ⟨ball, ⟨s, hs, hs1⟩, ⟨v, hv, hv1⟩, ⟨n, hn, hn1⟩, ⟨e, he, he1⟩⟩ := hb
  obtain ⟨call, ⟨s', hs', hs1'⟩, ⟨v', hv', hv1'⟩, ⟨n', hn', hn1'⟩, ⟨e', he', he1'⟩⟩ := hc
  have e1 : b.southWest.1 = c.southWest.1 :=
    le_antisymm (hs1' ▸ (ball s' hs').1) (hs1 ▸ (call s hs).1)
  have e2 : b.southWest.2 = c.southWest.2 :=
    le_antisymm (hv1' ▸ (ball v' hv').2.2.1) (hv1 ▸ (call v hv).2.2.1)
  have e3 : b.northEast.1 = c.northEast.1 :=
    le_antisymm (hn1 ▸ (call n hn).2.1) (hn1' ▸ (ball n' hn').2.1)
  have e4 : b.northEast.2 = c.northEast.2 :=
    le_antisymm (he1 ▸ (call e he).2.2.2) (he1' ▸ (ball e' he').2.2.2)
  cases b with
  | mk bsw bne =>
    cases c with
    | mk csw cne =>
      simp only [Bounds.mk.injEq]
      exact ⟨Prod.ext e1 e2, Prod.ext e3 e4⟩

/-- With `map.L` undefined both guarded branches are skipped: the effect ends
normally and sends nothing, whatever the route. -/
theorem effect_undefined {α : Type} (route : List (TrackPoint α)) :
    MapUpdater.effect MapL.undefined route = Except.ok [] := by
  simp [MapUpdater.effect, MapL.toBoolean]

/-- With a truthy `map.L` whose `LatLngBounds` is not a constructor, the effect
throws on line 67 for every route of two or more points, before any command. -/
theorem effect_throws_without_constructor {α : Type} (route : List (TrackPoint α))
    (h : 2 ≤ route.length) :
    MapUpdater.effect (MapL.object none) route
      = Except.error EffectError.notAConstructor := by
  have hlen : 1 < (MapUpdater.positions route).length := by
    simpa [MapUpdater.positions] using h
  simp [MapUpdater.effect, MapL.toBoolean, hlen]

/-- C8, evaluated where it fails. On the two-point route of scenario A, with
`map.L` undefined as the repository leaves it, the effect sends no command at
all, so no `fitBounds`; the same holds for every route. -/
theorem no_fitBounds_when_map_L_undefined :
    activeSession.app.currentRoute = [⟨10, 20, 1⟩, ⟨10, 21, 2⟩] ∧
    MapUpdater.effect MapL.undefined activeSession.app.currentRoute = Except.ok [] ∧
    (∀ route : List (TrackPoint Int),
      MapUpdater.effect MapL.undefined route = Except.ok []) :=
  ⟨by decide, effect_undefined _, fun route => effect_undefined route⟩

/-- When `map.L` is the Leaflet namespace, for every route of two or more
points the effect issues exactly one command, a `fitBounds` with padding
`[50, 50]` whose box is the exact bounding box of the route: every point lies
inside it and each side is attained by some point, so its corners are
`(min lat, min lng)` and `(max lat, max lng)`. No `setView` is issued. -/
theorem fitBounds_exact_box {α : Type} [LinearOrder α] (route : List (TrackPoint α))
    (h : 2 ≤ route.length) :
    ∃ b : Bounds α,
      MapUpdater.effect MapL.leaflet route
        = Except.ok [MapCommand.fitBounds (some b) (50, 50)] ∧
      (∀ p ∈ route, b.southWest.1 ≤ p.lat ∧ p.lat ≤ b.northEast.1 ∧
                    b.southWest.2 ≤ p.lng ∧ p.lng ≤ b.northEast.2) ∧
      (∃ p ∈ route, p.lat = b.southWest.1) ∧ (∃ p ∈ route, p.lng = b.southWest.2) ∧
      (∃ p ∈ route, p.lat = b.northEast.1) ∧ (∃ p ∈ route, p.lng = b.northEast.2) := by
  match route, h with
  | p :: q :: rest, _ =>
    obtain ⟨b, hb, hbox⟩ :=
      latLngBounds_isBoundingBox (p.lat, p.lng) (MapUpdater.positions (q :: rest))
    have heff : MapUpdater.effect MapL.leaflet (p :: q :: rest)
        = Except.ok [MapCommand.fitBounds (some b) (50, 50)] := by
      have hpos : MapUpdater.positions (p :: q :: rest)
          = (p.lat, p.lng) :: MapUpdater.positions (q :: rest) := rfl
      simp only [MapUpdater.effect, MapL.leaflet, hpos, hb]
      simp [MapUpdater.positions, MapL.toBoolean]
    have hpos : (p.lat, p.lng) :: MapUpdater.positions (q :: rest)
        = (p :: q :: rest).map (fun t => (t.lat, t.lng)) := rfl
    rw [hpos] at hbox
    obtain ⟨hall, ⟨s, hs, hs1⟩, ⟨v, hv, hv1⟩, ⟨n, hn, hn1⟩, ⟨e, he, he1⟩⟩ := hbox
    refine ⟨b, heff, ?_, ?_, ?_, ?_, ?_⟩
    · intro t ht
      exact hall (t.lat, t.lng) (List.mem_map.2 ⟨t, ht, rfl⟩)
    · obtain ⟨t, ht, rfl⟩ := List.mem_map.1 hs
      exact ⟨t, ht, hs1⟩
    · obtain ⟨t, ht, rfl⟩ := List.mem_map.1 hv
      exact ⟨t, ht, hv1⟩
    · obtain ⟨t, ht, rfl⟩ := List.mem_map.1 hn
      exact ⟨t, ht, hn1⟩
    · obtain ⟨t, ht, rfl⟩ := List.mem_map.1 he
      exact ⟨t, ht, he1⟩

/-- The route `[(10,20),(10,21)]` of scenario A with the Leaflet namespace in
`map.L`: the effect fits the box with latitude `[10,10]` and longitude
`[20,21]`. -/
theorem fitBounds_scenarioA :
    MapUpdater.effect MapL.leaflet activeSession.app.currentRoute
      = Except.ok [MapCommand.fitBounds (some ⟨(10, 20), (10, 21)⟩) (50, 50)] :=
  rfl

/-- C9, evaluated where it fails. On the one-point route `[(10,20)]`, with
`map.L` undefined as the repository leaves it, the effect sends no command at
all, so no `setView`; the same holds for every one-point route. -/
theorem no_setView_when_map_L_undefined :
    MapUpdater.effect MapL.undefined [(⟨10, 20, 1⟩ : TrackPoint Int)] = Except.ok [] ∧
    (∀ p : TrackPoint Int, MapUpdater.effect MapL.undefined [p] = Except.ok []) :=
  ⟨effect_undefined _, fun p => effect_undefined [p]⟩

/-- For every route of exactly one point `p`: when `map.L` holds any truthy
value the effect issues exactly `setView([p.lat, p.lng], 15)`, and whatever
`map.L` holds the effect ends normally without a `fitBounds`. -/
theorem single_point_setView {α : Type} (p : TrackPoint α) :
    (∀ ctor, MapUpdater.effect (MapL.object ctor) [p]
      = Except.ok [MapCommand.setView (p.lat, p.lng) 15]) ∧
    (∀ L : MapL α, ∃ cs, MapUpdater.effect L [p] = Except.ok cs ∧
      ∀ c ∈ cs, MapCommand.isFitBounds c = false) := by
  have h1 : ∀ ctor, MapUpdater.effect (MapL.object ctor) [p]
      = Except.ok [MapCommand.setView (p.lat, p.lng) 15] := by
    intro ctor
    simp [MapUpdater.effect, MapUpdater.positions, MapL.toBoolean]
  refine ⟨h1, ?_⟩
  intro L
  cases L with
  | undefined => exact ⟨[], effect_undefined [p], by simp⟩
  | object ctor =>
    refine ⟨_, h1 ctor, ?_⟩
    intro c hc
    have : c = MapCommand.setView (p.lat, p.lng) 15 := by simpa using hc
    rw [this]; rfl

end TripTracker
